import Mathlib

/-!
Verification development for the BigWheels swapchain subsystem
(`src/ppx/grfx/grfx_swapchain.cpp` and `src/ppx/swapchain.cpp`).

The C++ code is shallowly embedded: GPU objects (images, render passes,
command buffers, semaphores) are identified by natural-number ids handed
out by a `Device` allocator with injectable failures; imperative methods
become pure functions from state to state, and the GPU-facing side
effects (command recording, queue submission, presentation) are collected
in an explicit event trace.
-/

namespace Swapchain

/-- Subset of ppx::Result values that the swapchain code produces.
`ERROR_API_FAILURE` stands for the opaque backend error a failed
device-object creation returns. -/
inductive Result where
  | SUCCESS
  | ERROR_OUT_OF_RANGE
  | ERROR_OUT_OF_DATE
  | ERROR_SUBOPTIMAL
  | ERROR_API_FAILURE
  | ERROR_UNEXPECTED_NULL_ARGUMENT
deriving DecidableEq, Repr

/-- grfx::ResourceState values used in the swapchain recording paths. -/
inductive ResourceState where
  | PRESENT
  | RENDER_TARGET
  | COPY_DST
  | COPY_SRC
deriving DecidableEq, Repr

/-- grfx::ImageToImageCopyInfo: offsets and extent of an image copy.
All reachable values are non-negative, so fields are Nat. -/
structure ImageToImageCopyInfo where
  srcOffsetX : Nat := 0
  srcOffsetY : Nat := 0
  dstOffsetX : Nat := 0
  dstOffsetY : Nat := 0
  extentX : Nat := 0
  extentY : Nat := 0
deriving DecidableEq, Repr

/-- grfx::Rect (x, y, width, height). Reachable swapchain rects have
non-negative origin, so fields are Nat. -/
structure Rect where
  x : Nat
  y : Nat
  width : Nat
  height : Nat
deriving DecidableEq, Repr

/-- Observable GPU-facing actions of the swapchain code, in program order.
`Submit cbs waits signals fence` is grfx::Queue::Submit;
`PresentCall idx waits` is the backend PresentInternal call. -/
inductive Event where
  | CmdBegin (cb : Nat)
  | CmdEnd (cb : Nat)
  | Transition (image : Nat) (fromState toState : ResourceState)
  | BeginRenderPass (rp : Nat)
  | EndRenderPass
  | CopyImageToImage (info : ImageToImageCopyInfo) (src dst : Nat)
  | Submit (cbs : List Nat) (waits : List Nat) (signals : List Nat) (fence : Option Nat)
  | PresentCall (imageIndex : Nat) (waits : List Nat)
  | WaitIdle
  | DestroyRenderPassEv (rp : Nat)
  | DestroyImageEv (image : Nat)
deriving DecidableEq, Repr

/-- The device/queue allocator (external collaborator). Objects get fresh
ids starting from `nextId`; `live` lists the ids of currently live
objects, newest first; the nth creation call fails iff `n ∈ failAt`
(failure injection for rollback claims). Image, render-pass, command
buffer and semaphore creations all draw from the same id pool. -/
structure Device where
  nextId : Nat := 1
  live : List Nat := []
  failAt : List Nat := []
  calls : Nat := 0
deriving DecidableEq, Repr

/-- Allocate one device object (grfx::Device::CreateImage /
CreateRenderPass / CreateSemaphore / Queue::CreateCommandBuffer).
Returns the result, the new device state and the created id (0 when
the creation failed, standing for a null pointer). -/
def Device.create (d : Device) : Result × Device × Nat :=
  if d.calls ∈ d.failAt then
    (Result.ERROR_API_FAILURE, { d with calls := d.calls + 1 }, 0)
  else
    (Result.SUCCESS,
     { d with nextId := d.nextId + 1, live := d.nextId :: d.live, calls := d.calls + 1 },
     d.nextId)

/-- grfx::Device::DestroyImage / DestroyRenderPass: remove the object
from the live list. -/
def Device.destroy (d : Device) (id : Nat) : Device :=
  { d with live := d.live.erase id }

/-- Swapchain::Target: a resolution-bound bundle of color images, optional
depth images and the two cached render-pass arrays. -/
structure Target where
  width : Nat := 0
  height : Nat := 0
  colorImages : List Nat := []
  depthImages : List Nat := []
  clearRenderPasses : List Nat := []
  loadRenderPasses : List Nat := []
deriving DecidableEq, Repr

/-- The empty target: zero dimensions, no resources. -/
def emptyTarget : Target := {}

/-- grfx::SwapchainCreateInfo, restricted to the fields the embedded code
reads. `depthFormat = none` is grfx::FORMAT_UNDEFINED; `hasSurface`
is `pSurface != nullptr` (XR is not modelled, so IsHeadless is its
negation); `queueValid` is `pQueue != nullptr`. -/
structure SwapchainCreateInfo where
  width : Nat := 0
  height : Nat := 0
  imageCount : Nat := 0
  depthFormat : Option Nat := none
  hasSurface : Bool := true
  queueValid : Bool := true
deriving DecidableEq, Repr

/-- grfx::Swapchain state: the stored create info, the two targets, the
per-slot command buffers / recording flags / post-process semaphores,
and the current image index. -/
structure State where
  createInfo : SwapchainCreateInfo := {}
  deviceTarget : Target := {}
  indirectTarget : Target := {}
  isIndirect : Bool := false
  commandBuffers : List Nat := []
  isRecording : List Bool := []
  postProcessSemaphores : List Nat := []
  currentImageIndex : Nat := 0
deriving DecidableEq, Repr

/-- Swapchain::IsHeadless: true iff no surface was supplied
(the XR component is not modelled). -/
def IsHeadless (s : State) : Bool := !s.createInfo.hasSurface

/-- Modelled from the spec: `IsIndirect()` is declared in the missing
header grfx_swapchain.h and returns the derived `mIsIndirect` flag
("isIndirect: derived flag, true whenever indirectTarget is active"). -/
def IsIndirect (s : State) : Bool := s.isIndirect

/-- Modelled from the spec: `GetImageCount()` is declared in the missing
header and returns the stored create info's image count. -/
def GetImageCount (s : State) : Nat := s.createInfo.imageCount

/-- Modelled from the spec: `GetTarget()` is declared in the missing
header; the getters operate on the indirect target whenever indirection
is active (the indirect target is the set the application renders to,
and "the sole render target set when running headless"), otherwise on
the device target. -/
def GetTarget (s : State) : Target :=
  if s.isIndirect then s.indirectTarget else s.deviceTarget

/-- Shared loop shape of Target::CreateColorImages / CreateDepthImages /
the two render-pass loops: allocate `count` objects, appending each to
`acc`; stop and return the error as soon as one creation fails, keeping
what was already pushed (as the C++ loops do). -/
def createLoop (d : Device) (acc : List Nat) : Nat → Result × Device × List Nat
  | 0 => (Result.SUCCESS, d, acc)
  | n + 1 =>
    match Device.create d with
    | (Result.SUCCESS, d1, id) => createLoop d1 (acc ++ [id]) n
    | (r, d1, _) => (r, d1, acc)

/-- Swapchain::Target::CreateColorImages: allocate `imageCount` fresh
color render-target images, pushed onto `colorImages`. -/
def Target.CreateColorImages (t : Target) (d : Device) (imageCount : Nat) :
    Result × Device × Target :=
  let (r, d1, imgs) := createLoop d t.colorImages imageCount
  (r, d1, { t with colorImages := imgs })

/-- Swapchain::Target::WrapColorImages: one image creation per supplied
native handle, pushed onto `colorImages`. -/
def Target.WrapColorImages (t : Target) (d : Device) (handles : List Nat) :
    Result × Device × Target :=
  let (r, d1, imgs) := createLoop d t.colorImages handles.length
  (r, d1, { t with colorImages := imgs })

/-- Swapchain::Target::CreateDepthImages: allocate `imageCount` fresh
depth/stencil images, pushed onto `depthImages`. -/
def Target.CreateDepthImages (t : Target) (d : Device) (imageCount : Nat) :
    Result × Device × Target :=
  let (r, d1, imgs) := createLoop d t.depthImages imageCount
  (r, d1, { t with depthImages := imgs })

/-- Swapchain::Target::WrapDepthImages. The C++ loop iterates over
`depthImages.size()` while pushing onto `depthImages`, so it only
terminates when `depthImages` starts empty (the only reachable call,
from a freshly created target) and is then a no-op; the model performs
`depthImages.length` iterations of the same body. -/
def Target.WrapDepthImages (t : Target) (d : Device) (_handles : List Nat) :
    Result × Device × Target :=
  let (r, d1, imgs) := createLoop d t.depthImages t.depthImages.length
  (r, d1, { t with depthImages := imgs })

/-- Swapchain::Target::CreateRenderPasses: one CLEAR-load render pass per
color image, then one LOAD-load render pass per color image; each
creation can fail, stopping the loop. -/
def Target.CreateRenderPasses (t : Target) (d : Device) :
    Result × Device × Target :=
  let imageCount := t.colorImages.length
  match createLoop d t.clearRenderPasses imageCount with
  | (Result.SUCCESS, d1, clears) =>
    let (r, d2, loads) := createLoop d1 t.loadRenderPasses imageCount
    (r, d2, { t with clearRenderPasses := clears, loadRenderPasses := loads })
  | (r, d1, clears) => (r, d1, { t with clearRenderPasses := clears })

/-- Swapchain::Target::DestroyRenderPasses: destroy and clear the clear
render passes, then the load render passes. -/
def Target.DestroyRenderPasses (t : Target) (d : Device) :
    Device × Target × List Event :=
  let d1 := t.clearRenderPasses.foldl Device.destroy d
  let d2 := t.loadRenderPasses.foldl Device.destroy d1
  (d2, { t with clearRenderPasses := [], loadRenderPasses := [] },
   (t.clearRenderPasses ++ t.loadRenderPasses).map Event.DestroyRenderPassEv)

/-- Swapchain::Target::DestroyDepthImages. -/
def Target.DestroyDepthImages (t : Target) (d : Device) :
    Device × Target × List Event :=
  (t.depthImages.foldl Device.destroy d, { t with depthImages := [] },
   t.depthImages.map Event.DestroyImageEv)

/-- Swapchain::Target::DestroyColorImages. -/
def Target.DestroyColorImages (t : Target) (d : Device) :
    Device × Target × List Event :=
  (t.colorImages.foldl Device.destroy d, { t with colorImages := [] },
   t.colorImages.map Event.DestroyImageEv)

/-- Color-image phase of Swapchain::CreateTargetImpl: wrap the supplied
native handles when there are any, otherwise allocate
`createInfo.imageCount` fresh images. -/
def colorPhase (d : Device) (ci : SwapchainCreateInfo) (t : Target)
    (colorHandles : Option (List Nat)) : Result × Device × Target :=
  match colorHandles with
  | some hs =>
    if hs ≠ [] then Target.WrapColorImages t d hs
    else Target.CreateColorImages t d ci.imageCount
  | none => Target.CreateColorImages t d ci.imageCount

/-- Depth-image phase of Swapchain::CreateTargetImpl: wrap the supplied
handles when there are any, else allocate fresh depth images when a
depth format is configured, else do nothing. -/
def depthPhase (d : Device) (ci : SwapchainCreateInfo) (t : Target)
    (depthHandles : Option (List Nat)) : Result × Device × Target :=
  match depthHandles with
  | some hs =>
    if hs ≠ [] then Target.WrapDepthImages t d hs
    else if ci.depthFormat ≠ none then Target.CreateDepthImages t d ci.imageCount
    else (Result.SUCCESS, d, t)
  | none =>
    if ci.depthFormat ≠ none then Target.CreateDepthImages t d ci.imageCount
    else (Result.SUCCESS, d, t)

/-- Swapchain::CreateTargetImpl: set the dimensions, then create (or wrap)
the color images, then the depth images (wrapped, or created when a
depth format is configured), then the render passes; return at the
first failure, leaving whatever was already created in place. -/
def CreateTargetImpl (d : Device) (ci : SwapchainCreateInfo) (t : Target)
    (width height : Nat)
    (colorHandles depthHandles : Option (List Nat)) :
    Result × Device × Target :=
  let t := { t with width := width, height := height }
  match colorPhase d ci t colorHandles with
  | (Result.SUCCESS, d1, t1) =>
    match depthPhase d1 ci t1 depthHandles with
    | (Result.SUCCESS, d2, t2) => Target.CreateRenderPasses t2 d2
    | (r, d2, t2) => (r, d2, t2)
  | (r, d1, t1) => (r, d1, t1)

/-- Swapchain::DestroyTarget: zero the dimensions, destroy render passes,
then depth images, then color images (strict reverse-of-creation
order); safe on an already-empty target. -/
def DestroyTarget (d : Device) (t : Target) : Device × Target × List Event :=
  let t0 := { t with width := 0, height := 0 }
  let (d1, t1, e1) := Target.DestroyRenderPasses t0 d
  let (d2, t2, e2) := Target.DestroyDepthImages t1 d1
  let (d3, t3, e3) := Target.DestroyColorImages t2 d2
  (d3, t3, e1 ++ e2 ++ e3)

/-- Swapchain::CreateTarget: run CreateTargetImpl and, if any step failed,
roll the whole target back with DestroyTarget before propagating the
error. -/
def CreateTarget (d : Device) (ci : SwapchainCreateInfo) (t : Target)
    (width height : Nat)
    (colorHandles depthHandles : Option (List Nat)) :
    Result × Device × Target × List Event :=
  match CreateTargetImpl d ci t width height colorHandles depthHandles with
  | (Result.SUCCESS, d1, t1) => (Result.SUCCESS, d1, t1, [])
  | (r, d1, t1) =>
    let (d2, t2, evs) := DestroyTarget d1 t1
    (r, d2, t2, evs)

/-- Swapchain::CreateIndirectTarget. Note: the C++ function takes `width`
and `height` but passes `mCreateInfo.width/height` to CreateTarget,
ignoring its own parameters; the model reproduces this. -/
def CreateIndirectTarget (d : Device) (s : State) (_width _height : Nat) :
    Result × Device × State × List Event :=
  let (r, d1, t1, evs) :=
    CreateTarget d s.createInfo s.indirectTarget s.createInfo.width s.createInfo.height none none
  (r, d1, { s with indirectTarget := t1 }, evs)

/-- Swapchain::DestroyIndirectTarget. -/
def DestroyIndirectTarget (d : Device) (s : State) :
    Device × State × List Event :=
  let (d1, t1, evs) := DestroyTarget d s.indirectTarget
  (d1, { s with indirectTarget := t1 }, evs)

/-- Swapchain::SetIndirectRenderSize: recompute the indirect flag; no-op
when the requested dimensions equal the indirect target's current
dimensions; otherwise wait for the queue to go idle, destroy the
indirect target and, if still indirect, recreate it. -/
def SetIndirectRenderSize (d : Device) (s : State) (width height : Nat) :
    Result × Device × State × List Event :=
  let s := { s with isIndirect := width ≠ 0 && height ≠ 0 }
  if s.indirectTarget.width = width ∧ s.indirectTarget.height = height then
    (Result.SUCCESS, d, s, [])
  else
    let (d1, s1, evs) := DestroyIndirectTarget d s
    if !s1.isIndirect then
      (Result.SUCCESS, d1, s1, Event.WaitIdle :: evs)
    else
      let (r, d2, s2, evs2) := CreateIndirectTarget d1 s1 width height
      (r, d2, s2, Event.WaitIdle :: (evs ++ evs2))

/-- Swapchain::RecordPreamble: no-op when headless or when the slot is
already recording; otherwise begin the slot's command buffer, set the
slot's recording flag and, in indirect mode, record the clear pass and
the indirect-to-device copy. The copy info sets only the extent
(per-axis minimum of the create-info and indirect dimensions); both
offsets stay at their zero initialisation. -/
def RecordPreamble (s : State) (imageIndex : Nat) : State × List Event :=
  if IsHeadless s then (s, [])
  else if s.isRecording.getD imageIndex false then (s, [])
  else
    let cb := s.commandBuffers.getD imageIndex 0
    let s1 := { s with isRecording := s.isRecording.set imageIndex true }
    let evs := [Event.CmdBegin cb]
    if IsIndirect s1 then
      let srcImage := s1.indirectTarget.colorImages.getD imageIndex 0
      let dstImage := s1.deviceTarget.colorImages.getD imageIndex 0
      let dstClear := s1.deviceTarget.clearRenderPasses.getD imageIndex 0
      let imcopy : ImageToImageCopyInfo :=
        { extentX := min s1.createInfo.width s1.indirectTarget.width
          extentY := min s1.createInfo.height s1.indirectTarget.height }
      (s1, evs ++
        [Event.Transition dstImage ResourceState.PRESENT ResourceState.RENDER_TARGET,
         Event.BeginRenderPass dstClear,
         Event.EndRenderPass,
         Event.Transition dstImage ResourceState.RENDER_TARGET ResourceState.COPY_DST,
         Event.Transition srcImage ResourceState.PRESENT ResourceState.COPY_SRC,
         Event.CopyImageToImage imcopy srcImage dstImage,
         Event.Transition srcImage ResourceState.COPY_SRC ResourceState.PRESENT,
         Event.Transition dstImage ResourceState.COPY_DST ResourceState.PRESENT])
    else (s1, evs)

/-- Swapchain::PresentHeadless: begin and end an empty command buffer on
the tracked current slot and submit it waiting on the caller's
semaphores. -/
def PresentHeadless (s : State) (_imageIndex : Nat) (waitSemaphores : List Nat) :
    State × List Event :=
  let cb := s.commandBuffers.getD s.currentImageIndex 0
  (s, [Event.CmdBegin cb, Event.CmdEnd cb,
       Event.Submit [cb] waitSemaphores [] none])

/-- Body of Swapchain::Present after the headless and preamble branches:
if the slot's recording flag is set, end the command buffer indexed by
`mCurrentImageIndex` (the source indexes the buffer by the current
image index, not by `imageIndex`), clear the slot's flag, submit that
buffer waiting on the caller's semaphores and signaling the slot's
post-process semaphore, and present waiting on that semaphore;
otherwise present directly on the caller's semaphores. -/
def PresentCore (s : State) (imageIndex : Nat) (waitSemaphores : List Nat) :
    State × List Event :=
  if s.isRecording.getD imageIndex false then
    let cb := s.commandBuffers.getD s.currentImageIndex 0
    let pps := s.postProcessSemaphores.getD imageIndex 0
    ({ s with isRecording := s.isRecording.set imageIndex false },
     [Event.CmdEnd cb,
      Event.Submit [cb] waitSemaphores [pps] none,
      Event.PresentCall imageIndex [pps]])
  else
    (s, [Event.PresentCall imageIndex waitSemaphores])

/-- Swapchain::Present: headless path, else optional preamble recording
(indirect mode only), then the recorded-work flush and backend present
of PresentCore. -/
def Present (s : State) (imageIndex : Nat) (waitSemaphores : List Nat) :
    State × List Event :=
  if IsHeadless s then PresentHeadless s imageIndex waitSemaphores
  else
    let (s1, e1) :=
      if IsIndirect s then RecordPreamble s imageIndex else (s, [])
    let (s2, e2) := PresentCore s1 imageIndex waitSemaphores
    (s2, e1 ++ e2)

/-- Swapchain::AcquireNextImageHeadless: advance the current image index
round-robin over the indirect target's color images, then submit an
empty begin/end command buffer that signals the caller's semaphore
and fence. -/
def AcquireNextImageHeadless (s : State) (pSemaphore : Nat) (pFence : Option Nat) :
    Result × State × Nat × List Event :=
  let idx := (s.currentImageIndex + 1) % s.indirectTarget.colorImages.length
  let s1 := { s with currentImageIndex := idx }
  let cb := s1.commandBuffers.getD s1.currentImageIndex 0
  (Result.SUCCESS, s1, idx,
   [Event.CmdBegin cb, Event.CmdEnd cb,
    Event.Submit [cb] [] [pSemaphore] pFence])

/-- Per-slot allocation loop of Swapchain::Create: one device-object
creation per slot, results collected in order (creation failures are
ignored, as in the source, which checks neither CreateCommandBuffer
nor CreateSemaphore). -/
def allocateLoop (d : Device) (count : Nat) : Device × List Nat :=
  (List.range count).foldl
    (fun (acc : Device × List Nat) _ =>
      let (_, dn, id) := Device.create acc.1
      (dn, acc.2 ++ [id])) (d, [])

/-- Swapchain::Create, headless case (no surface, no XR). The base-class
create stores the create info; the headless image count is the
requested one (the surface-count update only runs when not headless).
Then SetIndirectRenderSize at the configured resolution, one command
buffer and recording flag per slot, one post-process semaphore per
slot, and `mCurrentImageIndex = imageCount - 1`. The backend
CreateApiObjects step is modelled from the spec: headless creation
performs no backend surface work. Creation results of the command
buffers and semaphores are ignored, as in the source. -/
def CreateHeadless (d : Device) (ci : SwapchainCreateInfo) :
    Result × Device × State :=
  if !ci.queueValid then (Result.ERROR_UNEXPECTED_NULL_ARGUMENT, d, {}) else
  let s0 : State := { createInfo := ci }
  let (_, d1, s1, _) := SetIndirectRenderSize d s0 ci.width ci.height
  let (d2, cbs) := allocateLoop d1 ci.imageCount
  let (d3, sems) := allocateLoop d2 ci.imageCount
  (Result.SUCCESS, d3,
   { s1 with
     commandBuffers := cbs
     isRecording := List.replicate ci.imageCount false
     postProcessSemaphores := sems
     currentImageIndex := ci.imageCount - 1 })

/-- Swapchain::GetColorImage (result-returning overload). The out
parameter is modelled by threading its previous value: on the
out-of-range path it is returned unchanged. -/
def GetColorImage (s : State) (imageIndex : Nat) (out : Nat) : Result × Nat :=
  if imageIndex < (GetTarget s).colorImages.length then
    (Result.SUCCESS, (GetTarget s).colorImages.getD imageIndex 0)
  else (Result.ERROR_OUT_OF_RANGE, out)

/-- Swapchain::GetDepthImage (result-returning overload): range-checked
against the target's depth image list, which is empty when no depth
format was configured. -/
def GetDepthImage (s : State) (imageIndex : Nat) (out : Nat) : Result × Nat :=
  if imageIndex < (GetTarget s).depthImages.length then
    (Result.SUCCESS, (GetTarget s).depthImages.getD imageIndex 0)
  else (Result.ERROR_OUT_OF_RANGE, out)

/-- grfx::AttachmentLoadOp. -/
inductive AttachmentLoadOp where
  | CLEAR
  | LOAD
deriving DecidableEq, Repr

/-- Swapchain::GetRenderPass (result-returning overload): range-checked
against the clear render-pass list, then selects the clear or load
variant. -/
def GetRenderPass (s : State) (imageIndex : Nat) (loadOp : AttachmentLoadOp)
    (out : Nat) : Result × Nat :=
  if imageIndex < (GetTarget s).clearRenderPasses.length then
    match loadOp with
    | AttachmentLoadOp.CLEAR =>
      (Result.SUCCESS, (GetTarget s).clearRenderPasses.getD imageIndex 0)
    | AttachmentLoadOp.LOAD =>
      (Result.SUCCESS, (GetTarget s).loadRenderPasses.getD imageIndex 0)
  else (Result.ERROR_OUT_OF_RANGE, out)

/-- DeviceSwapchainWrapImpl state (src/ppx/swapchain.cpp): the wrapped
grfx swapchain is left abstract; only the decorator's own flags are
state. -/
structure DeviceWrap where
  needUpdate : Bool := false
  absorbError : Bool := true
deriving DecidableEq, Repr

/-- DeviceSwapchainWrapImpl::AcquireNextImage, parameterised by the result
of the wrapped swapchain's acquire and by the value the wrapped call
left in the out parameter. On an out-of-date result: set needUpdate
and, when absorbing, write image index 0 and submit an empty
command-buffer batch signaling the caller's semaphore and fence, then
return success; on suboptimal: set needUpdate and, when absorbing,
return success with the index untouched; otherwise pass everything
through. -/
def DeviceWrap.AcquireNextImage (w : DeviceWrap) (innerResult : Result)
    (innerIndex : Nat) (pSemaphore : Nat) (pFence : Option Nat) :
    Result × DeviceWrap × Nat × List Event :=
  if innerResult = Result.ERROR_OUT_OF_DATE then
    let w1 := { w with needUpdate := true }
    if w1.absorbError then
      (Result.SUCCESS, w1, 0, [Event.Submit [] [] [pSemaphore] pFence])
    else (innerResult, w1, innerIndex, [])
  else if innerResult = Result.ERROR_SUBOPTIMAL then
    let w1 := { w with needUpdate := true }
    (if w1.absorbError then Result.SUCCESS else innerResult, w1, innerIndex, [])
  else (innerResult, w, innerIndex, [])

/-- DeviceSwapchainWrapImpl::Present, parameterised by the wrapped
swapchain's present result: out-of-date and suboptimal set needUpdate
and are converted to success iff absorption is enabled; everything
else passes through. -/
def DeviceWrap.Present (w : DeviceWrap) (innerResult : Result) :
    Result × DeviceWrap :=
  if innerResult = Result.ERROR_OUT_OF_DATE then
    ((if w.absorbError then Result.SUCCESS else innerResult),
     { w with needUpdate := true })
  else if innerResult = Result.ERROR_SUBOPTIMAL then
    ((if w.absorbError then Result.SUCCESS else innerResult),
     { w with needUpdate := true })
  else (innerResult, w)

/-- IndirectSwapchain::AcquireNextImage, parameterised by the next (real)
swapchain's result and out value: suboptimal is absorbed with no side
effect; out-of-date is absorbed by writing index 0 and submitting an
empty batch signaling the caller's semaphore and fence; everything
else passes through. -/
def IndirectAcquireNextImage (innerResult : Result) (innerIndex : Nat)
    (pSemaphore : Nat) (pFence : Option Nat) :
    Result × Nat × List Event :=
  if innerResult = Result.ERROR_SUBOPTIMAL then
    (Result.SUCCESS, innerIndex, [])
  else if innerResult = Result.ERROR_OUT_OF_DATE then
    (Result.SUCCESS, 0, [Event.Submit [] [] [pSemaphore] pFence])
  else (innerResult, innerIndex, [])

/-- IndirectSwapchain::Present: suboptimal and out-of-date from the next
swapchain are absorbed unconditionally. -/
def IndirectPresent (innerResult : Result) : Result :=
  if innerResult = Result.ERROR_SUBOPTIMAL then Result.SUCCESS
  else if innerResult = Result.ERROR_OUT_OF_DATE then Result.SUCCESS
  else innerResult

/-- VirtualSwapchain::GetRenderArea: the stored render area, or the full
image rectangle when the stored area has a zero dimension. -/
def VirtualGetRenderArea (renderArea : Rect) (imageWidth imageHeight : Nat) : Rect :=
  if renderArea.width = 0 ∨ renderArea.height = 0 then
    { x := 0, y := 0, width := imageWidth, height := imageHeight }
  else renderArea

/-- Copy-info computation of IndirectSwapchain::RecordCommands: start from
the two render-area origins, shift the larger side's offset by half
the difference per axis (centering), and clamp the extent to the
per-axis minimum. -/
def IndirectCopyInfo (src dst : Rect) : ImageToImageCopyInfo :=
  let srcOffsetX := src.x
  let srcOffsetY := src.y
  let dstOffsetX := dst.x
  let dstOffsetY := dst.y
  let (srcOffsetX, dstOffsetX) :=
    if dst.width < src.width then (srcOffsetX + (src.width - dst.width) / 2, dstOffsetX)
    else (srcOffsetX, dstOffsetX + (dst.width - src.width) / 2)
  let (srcOffsetY, dstOffsetY) :=
    if dst.height < src.height then (srcOffsetY + (src.height - dst.height) / 2, dstOffsetY)
    else (srcOffsetY, dstOffsetY + (dst.height - src.height) / 2)
  { srcOffsetX := srcOffsetX, srcOffsetY := srcOffsetY,
    dstOffsetX := dstOffsetX, dstOffsetY := dstOffsetY,
    extentX := min src.width dst.width, extentY := min src.height dst.height }

/-- IndirectSwapchain::RecordCommands: compute the centered copy info from
the virtual and next render areas, then record the clear pass and the
copy with the same transition discipline as RecordPreamble. -/
def IndirectRecordCommands (srcArea dstArea : Rect)
    (srcImage dstImage dstClearRenderPass : Nat) : List Event :=
  let imcopy := IndirectCopyInfo srcArea dstArea
  [Event.Transition dstImage ResourceState.PRESENT ResourceState.RENDER_TARGET,
   Event.BeginRenderPass dstClearRenderPass,
   Event.EndRenderPass,
   Event.Transition dstImage ResourceState.RENDER_TARGET ResourceState.COPY_DST,
   Event.Transition srcImage ResourceState.PRESENT ResourceState.COPY_SRC,
   Event.CopyImageToImage imcopy srcImage dstImage,
   Event.Transition srcImage ResourceState.COPY_SRC ResourceState.PRESENT,
   Event.Transition dstImage ResourceState.COPY_DST ResourceState.PRESENT]

/-- State of a headless swapchain after `k` successive AcquireNextImage
calls (Swapchain::AcquireNextImage dispatches straight to
AcquireNextImageHeadless when headless; semaphore/fence arguments do
not influence the index sequence). -/
def acquireStateN (s : State) : Nat → State
  | 0 => s
  | k + 1 => (AcquireNextImageHeadless (acquireStateN s k) 0 none).2.1

/-- Image index returned by the k-th (1-indexed) headless
AcquireNextImage call. -/
def acquireIndex (s : State) (k : Nat) : Nat :=
  (AcquireNextImageHeadless (acquireStateN s (k - 1)) 0 none).2.2.1

/-- Well-formedness of the device allocator: every live id was allocated
below the next fresh id. Holds for the initial device and is preserved
by every create/destroy. -/
def DeviceWF (d : Device) : Prop := ∀ x ∈ d.live, x < d.nextId

/-! ### Concrete states used by individual claims -/

/-- A non-headless, non-indirect swapchain in the state reached after the
device target was populated with two surface images, slot 1's command
buffer (id 11) was begun by RecordPreamble(1) (recording flag set) and
the current image index tracks slot 0: image ids 1-2, render passes
3-6, command buffers 10-11, post-process semaphores 20-21. -/
def c1State : State :=
  { createInfo := { width := 1024, height := 768, imageCount := 2, hasSurface := true }
    deviceTarget :=
      { width := 1024, height := 768, colorImages := [1, 2]
        clearRenderPasses := [3, 4], loadRenderPasses := [5, 6] }
    commandBuffers := [10, 11]
    isRecording := [false, true]
    postProcessSemaphores := [20, 21]
    currentImageIndex := 0 }

/-- Create info of a non-headless swapchain whose surface is 1024x768 with
two images. -/
def c2CreateInfo : SwapchainCreateInfo :=
  { width := 1024, height := 768, imageCount := 2, hasSurface := true }

/-- Fresh swapchain state over `c2CreateInfo` before any indirect sizing. -/
def c2State : State := { createInfo := c2CreateInfo }

/-- First SetIndirectRenderSize(800, 600) call on a fresh device. -/
def c2First : Result × Device × State × List Event :=
  SetIndirectRenderSize {} c2State 800 600

/-- Second, identical SetIndirectRenderSize(800, 600) call. -/
def c2Second : Result × Device × State × List Event :=
  SetIndirectRenderSize c2First.2.1 c2First.2.2.1 800 600

/-- An indirect, non-headless swapchain whose indirect target is 800x600
(image id 1) and whose device surface (create info) is 1024x768
(image id 11): the spec's compositing scenario. -/
def c3State : State :=
  { createInfo := { width := 1024, height := 768, imageCount := 1, hasSurface := true }
    deviceTarget :=
      { width := 1024, height := 768, colorImages := [11]
        clearRenderPasses := [12], loadRenderPasses := [13] }
    indirectTarget :=
      { width := 800, height := 600, colorImages := [1]
        clearRenderPasses := [2], loadRenderPasses := [3] }
    isIndirect := true
    commandBuffers := [30]
    isRecording := [false]
    postProcessSemaphores := [40] }

/-- Create info of a headless (no surface) swapchain: 64x64, two images,
no depth format. -/
def c4CreateInfo : SwapchainCreateInfo :=
  { width := 64, height := 64, imageCount := 2, hasSurface := false }

/-- A device whose third creation call is injected to fail: with two color
images and a configured depth format, color creation succeeds and the
first depth image allocation fails. -/
def c6Device : Device := { failAt := [2] }

/-- Create info with two images and a configured depth format, used to
exercise the depth-allocation-failure rollback. -/
def c6CreateInfo : SwapchainCreateInfo :=
  { width := 640, height := 480, imageCount := 2, depthFormat := some 1 }

/-! ### Helper lemmas about the device allocator and target lifecycle -/

theorem createLoop_spec (n : Nat) (d : Device) (acc : List Nat) :
    ∃ new : List Nat,
      (createLoop d acc n).2.2 = acc ++ new ∧
      (createLoop d acc n).2.1.live = new.reverse ++ d.live ∧
      d.nextId ≤ (createLoop d acc n).2.1.nextId ∧
      (∀ x ∈ new, d.nextId ≤ x) ∧
      (createLoop d acc n).2.1.failAt = d.failAt := by
  induction n generalizing d acc with
  | zero =>
    exact ⟨[], by simp [createLoop], by simp [createLoop],
      Nat.le_refl _, by simp, rfl⟩
  | succ n ih =>
    by_cases hf : d.calls ∈ d.failAt
    · refine ⟨[], ?_, ?_, ?_, by simp, ?_⟩ <;>
        simp [createLoop, Device.create, hf]
    · have hstep : createLoop d acc (n + 1) =
          createLoop { d with nextId := d.nextId + 1, live := d.nextId :: d.live, calls := d.calls + 1 } (acc ++ [d.nextId]) n := by
        simp [createLoop, Device.create, hf]
      obtain ⟨new, hacc, hlive, hnext, hbound, hfail⟩ :=
        ih { d with nextId := d.nextId + 1, live := d.nextId :: d.live, calls := d.calls + 1 } (acc ++ [d.nextId])
      refine ⟨d.nextId :: new, ?_, ?_, ?_, ?_, ?_⟩
      · rw [hstep, hacc]
        simp
      · rw [hstep, hlive]
        simp
      · rw [hstep]
        exact Nat.le_trans (Nat.le_succ _) hnext
      · intro x hx
        rcases List.mem_cons.mp hx with hx | hx
        · exact hx ▸ Nat.le_refl _
        · exact Nat.le_trans (Nat.le_succ _) (hbound x hx)
      · rw [hstep, hfail]

theorem createLoop_noFail (n : Nat) (d : Device) (acc : List Nat)
    (hf : d.failAt = []) :
    (createLoop d acc n).1 = Result.SUCCESS ∧
    (createLoop d acc n).2.2.length = acc.length + n ∧
    (createLoop d acc n).2.1.failAt = [] := by
  induction n generalizing d acc with
  | zero => simp [createLoop, hf]
  | succ n ih =>
    have hnot : d.calls ∉ d.failAt := by
      rw [hf]
      exact List.not_mem_nil _
    have hstep : createLoop d acc (n + 1) =
        createLoop { d with nextId := d.nextId + 1, live := d.nextId :: d.live, calls := d.calls + 1 } (acc ++ [d.nextId]) n := by
      simp [createLoop, Device.create, hnot]
    obtain ⟨h1, h2, h3⟩ :=
      ih { d with nextId := d.nextId + 1, live := d.nextId :: d.live, calls := d.calls + 1 } (acc ++ [d.nextId]) hf
    rw [hstep]
    refine ⟨h1, ?_, h3⟩
    rw [h2]
    simp
    omega

theorem foldl_destroy (xs : List Nat) (d : Device) :
    xs.foldl Device.destroy d = { d with live := xs.foldl List.erase d.live } := by
  induction xs generalizing d with
  | nil => rfl
  | cons x xs ih => simp [Device.destroy, ih]

theorem destroyTarget_spec (d : Device) (t : Target) :
    (DestroyTarget d t).2.1 = emptyTarget ∧
    (DestroyTarget d t).1.live =
      (t.clearRenderPasses ++ t.loadRenderPasses ++ t.depthImages ++
        t.colorImages).foldl List.erase d.live ∧
    (DestroyTarget d t).1.nextId = d.nextId ∧
    (DestroyTarget d t).1.failAt = d.failAt ∧
    (DestroyTarget d t).2.2 =
      (t.clearRenderPasses ++ t.loadRenderPasses).map Event.DestroyRenderPassEv ++
      t.depthImages.map Event.DestroyImageEv ++
      t.colorImages.map Event.DestroyImageEv := by
  simp [DestroyTarget, Target.DestroyRenderPasses, Target.DestroyDepthImages,
    Target.DestroyColorImages, emptyTarget, foldl_destroy, List.foldl_append]

theorem foldl_erase_of_perm :
    ∀ (ds pre old : List Nat), pre.Perm ds → (∀ a ∈ ds, a ∉ old) →
      ds.foldl List.erase (pre ++ old) = old := by
  intro ds
  induction ds with
  | nil =>
    intro pre old hperm _
    rw [hperm.eq_nil]
    rfl
  | cons a ds ih =>
    intro pre old hperm hnot
    have hmem : a ∈ pre ∧ ds.Perm (pre.erase a) :=
      List.cons_perm_iff_perm_erase.mp hperm.symm
    have herase : (pre ++ old).erase a = pre.erase a ++ old :=
      List.erase_append_left _ hmem.1
    simp only [List.foldl_cons]
    rw [herase]
    exact ih (pre.erase a) old hmem.2.symm (fun b hb => hnot b (List.mem_cons_of_mem _ hb))

theorem rev4_perm (a b c e : List Nat) :
    (a ++ b ++ c ++ e).Perm
      (b.reverse ++ a.reverse ++ c.reverse ++ e.reverse) := by
  have h1 : (a ++ b).Perm (b.reverse ++ a.reverse) :=
    List.perm_append_comm.trans ((b.reverse_perm.append a.reverse_perm).symm)
  exact (h1.append c.reverse_perm.symm).append e.reverse_perm.symm

theorem createColorImages_eq (t : Target) (d : Device) (k : Nat) :
    Target.CreateColorImages t d k =
      ((createLoop d t.colorImages k).1, (createLoop d t.colorImages k).2.1,
       { t with colorImages := (createLoop d t.colorImages k).2.2 }) := by
  rcases h : createLoop d t.colorImages k with ⟨r, d1, imgs⟩
  simp [Target.CreateColorImages, h]

theorem createDepthImages_eq (t : Target) (d : Device) (k : Nat) :
    Target.CreateDepthImages t d k =
      ((createLoop d t.depthImages k).1, (createLoop d t.depthImages k).2.1,
       { t with depthImages := (createLoop d t.depthImages k).2.2 }) := by
  rcases h : createLoop d t.depthImages k with ⟨r, d1, imgs⟩
  simp [Target.CreateDepthImages, h]

theorem colorPhase_exists (d : Device) (ci : SwapchainCreateInfo) (t : Target)
    (chs : Option (List Nat)) :
    ∃ k, colorPhase d ci t chs = Target.CreateColorImages t d k := by
  rcases chs with _ | hs
  · exact ⟨ci.imageCount, rfl⟩
  · by_cases h : hs ≠ []
    · exact ⟨hs.length, by
        simp [colorPhase, h, Target.WrapColorImages, Target.CreateColorImages]⟩
    · exact ⟨ci.imageCount, by simp [colorPhase, h]⟩

theorem depthPhase_exists (d : Device) (ci : SwapchainCreateInfo) (t : Target)
    (dhs : Option (List Nat)) :
    ∃ k, depthPhase d ci t dhs = Target.CreateDepthImages t d k := by
  have hid : Target.CreateDepthImages t d 0 = (Result.SUCCESS, d, t) := rfl
  rcases dhs with _ | hs
  · by_cases h : ci.depthFormat ≠ none
    · exact ⟨ci.imageCount, by simp [depthPhase, h]⟩
    · exact ⟨0, by simp [depthPhase, h, hid]⟩
  · by_cases h : hs ≠ []
    · exact ⟨t.depthImages.length, by
        simp [depthPhase, h, Target.WrapDepthImages, Target.CreateDepthImages]⟩
    · by_cases h2 : ci.depthFormat ≠ none
      · exact ⟨ci.imageCount, by simp [depthPhase, h, h2]⟩
      · exact ⟨0, by simp [depthPhase, h, h2, hid]⟩

theorem createRenderPasses_spec (t : Target) (d : Device) :
    ∃ na nb : List Nat,
      (Target.CreateRenderPasses t d).2.2 =
        { t with clearRenderPasses := t.clearRenderPasses ++ na,
                 loadRenderPasses := t.loadRenderPasses ++ nb } ∧
      (Target.CreateRenderPasses t d).2.1.live =
        nb.reverse ++ (na.reverse ++ d.live) ∧
      (∀ x ∈ na ++ nb, d.nextId ≤ x) := by
  unfold Target.CreateRenderPasses
  obtain ⟨na, hacc1, hlive1, hnext1, hbound1, -⟩ :=
    createLoop_spec t.colorImages.length d t.clearRenderPasses
  rcases h1 : createLoop d t.clearRenderPasses t.colorImages.length with ⟨r1, d1, clears⟩
  rw [h1] at hacc1 hlive1 hnext1
  dsimp only at hacc1 hlive1 hnext1
  simp only [h1]
  cases r1
  case SUCCESS =>
    obtain ⟨nb, hacc2, hlive2, hnext2, hbound2, -⟩ :=
      createLoop_spec t.colorImages.length d1 t.loadRenderPasses
    rcases h2 : createLoop d1 t.loadRenderPasses t.colorImages.length with ⟨r2, d2, loads⟩
    rw [h2] at hacc2 hlive2 hnext2
    dsimp only at hacc2 hlive2 hnext2
    simp only [h2]
    refine ⟨na, nb, ?_, ?_, ?_⟩
    · cases r2 <;> simp [hacc1, hacc2]
    · cases r2 <;> simp [hlive2, hlive1]
    · intro x hx
      rcases List.mem_append.mp hx with hx | hx
      · exact hbound1 x hx
      · exact Nat.le_trans hnext1 (hbound2 x hx)
  all_goals
    exact ⟨na, [], by simp [hacc1], by simp [hlive1], by
      intro x hx
      simp only [List.append_nil] at hx
      exact hbound1 x hx⟩

theorem createTargetImpl_spec (d : Device) (ci : SwapchainCreateInfo)
    (t : Target) (w h : Nat) (chs dhs : Option (List Nat)) :
    ∃ n1 n2 na nb : List Nat,
      (CreateTargetImpl d ci t w h chs dhs).2.2 =
        { width := w, height := h,
          colorImages := t.colorImages ++ n1,
          depthImages := t.depthImages ++ n2,
          clearRenderPasses := t.clearRenderPasses ++ na,
          loadRenderPasses := t.loadRenderPasses ++ nb } ∧
      (CreateTargetImpl d ci t w h chs dhs).2.1.live =
        nb.reverse ++ (na.reverse ++ (n2.reverse ++ (n1.reverse ++ d.live))) ∧
      (∀ x ∈ n1 ++ n2 ++ na ++ nb, d.nextId ≤ x) := by
  unfold CreateTargetImpl
  dsimp only
  obtain ⟨k1, hk1⟩ := colorPhase_exists d ci { t with width := w, height := h } chs
  rw [hk1, createColorImages_eq]
  obtain ⟨n1, hacc1, hlive1, hnext1, hbound1, -⟩ :=
    createLoop_spec k1 d ({ t with width := w, height := h } : Target).colorImages
  rcases h1 : createLoop d ({ t with width := w, height := h } : Target).colorImages k1
    with ⟨r1, d1, imgs1⟩
  rw [h1] at hacc1 hlive1 hnext1
  dsimp only at hacc1 hlive1 hnext1 ⊢
  cases r1
  case SUCCESS =>
    dsimp only
    obtain ⟨k2, hk2⟩ :=
      depthPhase_exists d1 ci { t with width := w, height := h, colorImages := imgs1 } dhs
    rw [hk2, createDepthImages_eq]
    obtain ⟨n2, hacc2, hlive2, hnext2, hbound2, -⟩ :=
      createLoop_spec k2 d1
        ({ t with width := w, height := h, colorImages := imgs1 } : Target).depthImages
    rcases h2 : createLoop d1
        ({ t with width := w, height := h, colorImages := imgs1 } : Target).depthImages k2
      with ⟨r2, d2, imgs2⟩
    rw [h2] at hacc2 hlive2 hnext2
    dsimp only at hacc2 hlive2 hnext2 ⊢
    cases r2
    case SUCCESS =>
      dsimp only
      obtain ⟨na, nb, hrp1, hrp2, hrpb⟩ :=
        createRenderPasses_spec
          { t with width := w, height := h, colorImages := imgs1, depthImages := imgs2 } d2
      refine ⟨n1, n2, na, nb, ?_, ?_, ?_⟩
      · rw [hrp1]
        dsimp only
        simp only [hacc1, hacc2]
      · rw [hrp2, hlive2, hlive1]
      · intro x hx
        simp only [List.mem_append] at hx
        rcases hx with ((hx | hx) | hx) | hx
        · exact hbound1 x hx
        · exact Nat.le_trans hnext1 (hbound2 x hx)
        · exact Nat.le_trans hnext1 (Nat.le_trans hnext2
            (hrpb x (List.mem_append.mpr (Or.inl hx))))
        · exact Nat.le_trans hnext1 (Nat.le_trans hnext2
            (hrpb x (List.mem_append.mpr (Or.inr hx))))
    all_goals
      refine ⟨n1, n2, [], [], ?_, ?_, ?_⟩
      · dsimp only
        simp only [hacc1, hacc2, List.append_nil]
      · dsimp only
        rw [hlive2, hlive1]
        simp [List.append_assoc]
      · intro x hx
        simp only [List.append_nil, List.mem_append] at hx
        rcases hx with hx | hx
        · exact hbound1 x hx
        · exact Nat.le_trans hnext1 (hbound2 x hx)
  all_goals
    refine ⟨n1, [], [], [], ?_, ?_, ?_⟩
    · dsimp only
      simp only [hacc1, List.append_nil]
    · dsimp only
      rw [hlive1]
      simp
    · intro x hx
      simp only [List.append_nil, List.mem_append] at hx
      exact hbound1 x hx

theorem createTarget_dims_or_empty (d : Device) (ci : SwapchainCreateInfo)
    (w h : Nat) (chs dhs : Option (List Nat)) :
    (CreateTarget d ci emptyTarget w h chs dhs).2.2.1 = emptyTarget ∨
    ((CreateTarget d ci emptyTarget w h chs dhs).2.2.1.width = w ∧
     (CreateTarget d ci emptyTarget w h chs dhs).2.2.1.height = h) := by
  obtain ⟨n1, n2, na, nb, htgt, -, -⟩ :=
    createTargetImpl_spec d ci emptyTarget w h chs dhs
  unfold CreateTarget
  rcases himpl : CreateTargetImpl d ci emptyTarget w h chs dhs with ⟨r, d1, t1⟩
  rw [himpl] at htgt
  dsimp only at htgt ⊢
  cases r
  case SUCCESS =>
    right
    dsimp only
    rw [htgt]
    exact ⟨rfl, rfl⟩
  all_goals
    left
    exact (destroyTarget_spec d1 t1).1

theorem setIndirectRenderSize_shape (d : Device) (s : State) (w h : Nat) :
    ∃ (t : Target) (d1 : Device) (r : Result) (evs : List Event),
      SetIndirectRenderSize d s w h =
        (r, d1, { s with isIndirect := (w ≠ 0 && h ≠ 0), indirectTarget := t }, evs) ∧
      ((t = s.indirectTarget ∧ s.indirectTarget.width = w ∧ s.indirectTarget.height = h) ∨
       t = emptyTarget ∨
       ((w ≠ 0 ∧ h ≠ 0) ∧ t.width = s.createInfo.width ∧
         t.height = s.createInfo.height)) := by
  by_cases hguard : s.indirectTarget.width = w ∧ s.indirectTarget.height = h
  · exact ⟨s.indirectTarget, d, Result.SUCCESS, [],
      by simp [SetIndirectRenderSize, hguard], Or.inl ⟨rfl, hguard⟩⟩
  · obtain ⟨hdt, -, -, -, -⟩ := destroyTarget_spec d s.indirectTarget
    rcases hd : DestroyTarget d s.indirectTarget with ⟨dd, tt, evss⟩
    rw [hd] at hdt
    dsimp only at hdt
    subst hdt
    by_cases hind : (w ≠ 0 && h ≠ 0 : Bool) = true
    · obtain ⟨hwz, hhz⟩ : w ≠ 0 ∧ h ≠ 0 := by simpa using hind
      rcases hct : CreateTarget dd s.createInfo emptyTarget s.createInfo.width
        s.createInfo.height none none with ⟨rc, dc, tc, evsc⟩
      have hdims := createTarget_dims_or_empty dd s.createInfo
        s.createInfo.width s.createInfo.height none none
      rw [hct] at hdims
      dsimp only at hdims
      refine ⟨tc, dc, rc, Event.WaitIdle :: (evss ++ evsc), ?_, ?_⟩
      · simp [SetIndirectRenderSize, DestroyIndirectTarget, CreateIndirectTarget,
          hguard, hd, hind, hct, hwz, hhz]
      · rcases hdims with hdims | hdims
        · exact Or.inr (Or.inl hdims)
        · exact Or.inr (Or.inr ⟨⟨hwz, hhz⟩, hdims⟩)
    · refine ⟨emptyTarget, dd, Result.SUCCESS, Event.WaitIdle :: evss, ?_,
        Or.inr (Or.inl rfl)⟩
      simp [SetIndirectRenderSize, DestroyIndirectTarget, hguard, hd, hind]
      intro hw0 hh0
      exact absurd (by simp [hw0, hh0]) hind

theorem createTargetImpl_noFail (d : Device) (ci : SwapchainCreateInfo)
    (w h : Nat) (hf : d.failAt = []) :
    (CreateTargetImpl d ci emptyTarget w h none none).1 = Result.SUCCESS ∧
    (CreateTargetImpl d ci emptyTarget w h none none).2.2.colorImages.length =
      ci.imageCount := by
  unfold CreateTargetImpl
  dsimp only
  rw [show colorPhase d ci { emptyTarget with width := w, height := h } none =
      Target.CreateColorImages { emptyTarget with width := w, height := h } d
        ci.imageCount from rfl]
  rw [createColorImages_eq]
  obtain ⟨hc1, hc2, hc3⟩ := createLoop_noFail ci.imageCount d
    ({ emptyTarget with width := w, height := h } : Target).colorImages hf
  rcases h1 : createLoop d
      ({ emptyTarget with width := w, height := h } : Target).colorImages ci.imageCount
    with ⟨r1, d1, imgs1⟩
  rw [h1] at hc1 hc2 hc3
  dsimp only at hc1 hc2 hc3 ⊢
  subst hc1
  dsimp only
  obtain ⟨k2, hk2⟩ := depthPhase_exists d1 ci
    { emptyTarget with width := w, height := h, colorImages := imgs1 } none
  rw [hk2, createDepthImages_eq]
  obtain ⟨hd1, -, hd3⟩ := createLoop_noFail k2 d1
    ({ emptyTarget with width := w, height := h, colorImages := imgs1 } :
      Target).depthImages hc3
  rcases h2 : createLoop d1
      ({ emptyTarget with width := w, height := h, colorImages := imgs1 } :
        Target).depthImages k2
    with ⟨r2, d2, imgs2⟩
  rw [h2] at hd1 hd3
  dsimp only at hd1 hd3 ⊢
  subst hd1
  dsimp only
  unfold Target.CreateRenderPasses
  obtain ⟨hr1, -, hr3⟩ := createLoop_noFail imgs1.length d2 [] hd3
  rcases h3 : createLoop d2 [] imgs1.length with ⟨r3, d3, clears⟩
  rw [h3] at hr1 hr3
  dsimp only at hr1 hr3
  subst hr1
  obtain ⟨hr4, -, -⟩ := createLoop_noFail imgs1.length d3 [] hr3
  rcases h4 : createLoop d3 [] imgs1.length with ⟨r4, d4, loads⟩
  rw [h4] at hr4
  dsimp only at hr4
  subst hr4
  have hlen : imgs1.length = ci.imageCount := by simpa [emptyTarget] using hc2
  have hrw1 : emptyTarget.clearRenderPasses = [] := rfl
  have hrw2 : emptyTarget.loadRenderPasses = [] := rfl
  constructor
  · simp only [hrw1, hrw2, h3, h4]
  · simp only [hrw1, hrw2, h3, h4]
    exact hlen

theorem sirs_initial (d : Device) (ci : SwapchainCreateInfo)
    (hwz : ci.width ≠ 0) (hhz : ci.height ≠ 0) (hf : d.failAt = []) :
    (SetIndirectRenderSize d { createInfo := ci } ci.width ci.height).2.2.1.createInfo =
      ci ∧
    (SetIndirectRenderSize d { createInfo := ci }
      ci.width ci.height).2.2.1.indirectTarget.colorImages.length = ci.imageCount := by
  unfold SetIndirectRenderSize DestroyIndirectTarget CreateIndirectTarget
  dsimp only
  rw [if_neg (fun hc => hwz (hc.1.symm))]
  have hb : (decide (ci.width ≠ 0) && decide (ci.height ≠ 0)) = true := by
    simp [hwz, hhz]
  obtain ⟨hsucc, hlen⟩ := createTargetImpl_noFail d ci ci.width ci.height hf
  unfold CreateTarget
  rcases himpl : CreateTargetImpl d ci emptyTarget ci.width ci.height none none
    with ⟨ri, di, ti⟩
  rw [himpl] at hsucc hlen
  dsimp only at hsucc hlen
  subst hsucc
  have hdt : DestroyTarget d ({ width := 0, height := 0, colorImages := [], depthImages := [], clearRenderPasses := [], loadRenderPasses := [] } : Target) = (d, emptyTarget, []) := rfl
  simp [hwz, hhz, hdt, himpl, hlen]

theorem createHeadless_facts (d : Device) (ci : SwapchainCreateInfo)
    (hq : ci.queueValid = true) (hwz : ci.width ≠ 0) (hhz : ci.height ≠ 0)
    (hf : d.failAt = []) :
    (CreateHeadless d ci).2.2.createInfo = ci ∧
    (CreateHeadless d ci).2.2.currentImageIndex = ci.imageCount - 1 ∧
    (CreateHeadless d ci).2.2.indirectTarget.colorImages.length = ci.imageCount := by
  obtain ⟨hci, hcolors⟩ := sirs_initial d ci hwz hhz hf
  unfold CreateHeadless
  have hqc : (!ci.queueValid) = false := by rw [hq]; rfl
  simp only [hqc, Bool.false_eq_true, if_false]
  rcases hs : SetIndirectRenderSize d { createInfo := ci } ci.width ci.height
    with ⟨r1, d1, s1, evs1⟩
  rw [hs] at hci hcolors
  dsimp only at hci hcolors
  rcases hf1 : allocateLoop d1 ci.imageCount with ⟨d2, cbs⟩
  rcases hf2 : allocateLoop d2 ci.imageCount with ⟨d3, sems⟩
  simp only [hs, hf1, hf2]
  exact ⟨hci, trivial, hcolors⟩

theorem acquireStateN_spec (s : State) (N : Nat) (hN : 1 ≤ N)
    (hlen : s.indirectTarget.colorImages.length = N)
    (hcur : s.currentImageIndex = N - 1) :
    ∀ k, (acquireStateN s k).currentImageIndex = (N - 1 + k) % N ∧
         (acquireStateN s k).indirectTarget = s.indirectTarget := by
  intro k
  induction k with
  | zero =>
    refine ⟨?_, rfl⟩
    have : N - 1 < N := by omega
    simpa [acquireStateN, hcur] using (Nat.mod_eq_of_lt this).symm
  | succ k ih =>
    obtain ⟨ih1, ih2⟩ := ih
    have hlen2 : (acquireStateN s k).indirectTarget.colorImages.length = N := by
      rw [ih2, hlen]
    constructor
    · show (AcquireNextImageHeadless (acquireStateN s k) 0 none).2.1.currentImageIndex = _
      simp only [AcquireNextImageHeadless]
      rw [hlen2, ih1, Nat.mod_add_mod, Nat.add_assoc]
    · show (AcquireNextImageHeadless (acquireStateN s k) 0 none).2.1.indirectTarget = _
      simp only [AcquireNextImageHeadless]
      exact ih2

/-! ### Claim theorems -/

/-- C1: the claim says Present, on a slot with an open recording scope,
ends and submits that slot's command buffer. The source instead ends
and submits `mCommandBuffers[mCurrentImageIndex]` while checking and
clearing `mIsRecording[imageIndex]` and signaling the slot's
post-process semaphore: at the failing input (recording open on slot 1,
current image index 0) the buffer that is ended and submitted is slot
0's buffer 10, not slot 1's buffer 11 that RecordPreamble begun. The
rest of the claim's structure (flag cleared, submit waits on the
caller's semaphore 30 and signals slot 1's post-process semaphore 21,
backend present waits on 21) is visible in the same trace. -/
theorem c1_present_flush_uses_other_slot_buffer :
    Present c1State 1 [30] =
      ({ c1State with isRecording := [false, false] },
       [Event.CmdEnd 10,
        Event.Submit [10] [30] [21] none,
        Event.PresentCall 1 [21]]) ∧
    c1State.commandBuffers.getD 1 0 = 11 ∧
    c1State.commandBuffers.getD c1State.currentImageIndex 0 = 10 ∧
    (10 : Nat) ≠ 11 := by
  decide

/-- C2: the claim says a second identical non-zero SetIndirectRenderSize
call is a no-op keeping the same image instances. On a 1024x768
swapchain, SetIndirectRenderSize(800,600) creates the indirect target
at 1024x768 (CreateIndirectTarget ignores its parameters and uses
mCreateInfo), so the second (800,600) call fails the dimension guard,
destroys images 1-2 and render passes 3-6, and reallocates new images
7-8: not a no-op, and not the same instances. -/
theorem c2_setIndirectRenderSize_not_idempotent :
    c2First.2.2.1.indirectTarget.width = 1024 ∧
    c2First.2.2.1.indirectTarget.height = 768 ∧
    c2First.2.2.1.indirectTarget.colorImages = [1, 2] ∧
    c2Second.2.2.1.indirectTarget.colorImages = [7, 8] ∧
    c2First.2.2.1.indirectTarget.colorImages ≠
      c2Second.2.2.1.indirectTarget.colorImages ∧
    Event.DestroyImageEv 1 ∈ c2Second.2.2.2 ∧
    Event.DestroyImageEv 2 ∈ c2Second.2.2.2 := by
  decide

/-- C3 counterexample: the claim says the preamble blit of an 800x600
indirect target onto a 1024x768 device target uses destination offset
(112, 84). Swapchain::RecordPreamble leaves both copy offsets at their
zero initialisation: the recorded copy for that exact scenario carries
destination offset (0, 0) and differs from the claimed copy info. -/
theorem c3_recordPreamble_offsets_not_centered :
    (RecordPreamble c3State 0).2 =
      [Event.CmdBegin 30,
       Event.Transition 11 ResourceState.PRESENT ResourceState.RENDER_TARGET,
       Event.BeginRenderPass 12,
       Event.EndRenderPass,
       Event.Transition 11 ResourceState.RENDER_TARGET ResourceState.COPY_DST,
       Event.Transition 1 ResourceState.PRESENT ResourceState.COPY_SRC,
       Event.CopyImageToImage { extentX := 800, extentY := 600 } 1 11,
       Event.Transition 1 ResourceState.COPY_SRC ResourceState.PRESENT,
       Event.Transition 11 ResourceState.COPY_DST ResourceState.PRESENT] ∧
    ({ extentX := 800, extentY := 600 } : ImageToImageCopyInfo).dstOffsetX = 0 ∧
    ({ extentX := 800, extentY := 600 } : ImageToImageCopyInfo) ≠
      { dstOffsetX := 112, dstOffsetY := 84, extentX := 800, extentY := 600 } := by
  decide

/-- C3 amended: Swapchain::RecordPreamble records the blit with copy
extent equal to the per-axis minimum of the create-info (device) and
indirect-target dimensions and with source and destination offsets
both zero (top-left anchored); the centered-offset blit the claim
describes is computed by IndirectSwapchain::RecordCommands, which for
an 800x600 virtual area composited onto a 1024x768 next-swapchain area
yields source offset (0,0), destination offset (112,84) and extent
800x600. -/
theorem c3_amended_preamble_extent_and_indirect_centering
    (s : State) (i : Nat)
    (hh : IsHeadless s = false)
    (hr : s.isRecording.getD i false = false)
    (hi : IsIndirect s = true) :
    (RecordPreamble s i).2 =
      [Event.CmdBegin (s.commandBuffers.getD i 0),
       Event.Transition (s.deviceTarget.colorImages.getD i 0)
         ResourceState.PRESENT ResourceState.RENDER_TARGET,
       Event.BeginRenderPass (s.deviceTarget.clearRenderPasses.getD i 0),
       Event.EndRenderPass,
       Event.Transition (s.deviceTarget.colorImages.getD i 0)
         ResourceState.RENDER_TARGET ResourceState.COPY_DST,
       Event.Transition (s.indirectTarget.colorImages.getD i 0)
         ResourceState.PRESENT ResourceState.COPY_SRC,
       Event.CopyImageToImage
         { srcOffsetX := 0, srcOffsetY := 0, dstOffsetX := 0, dstOffsetY := 0
           extentX := min s.createInfo.width s.indirectTarget.width
           extentY := min s.createInfo.height s.indirectTarget.height }
         (s.indirectTarget.colorImages.getD i 0)
         (s.deviceTarget.colorImages.getD i 0),
       Event.Transition (s.indirectTarget.colorImages.getD i 0)
         ResourceState.COPY_SRC ResourceState.PRESENT,
       Event.Transition (s.deviceTarget.colorImages.getD i 0)
         ResourceState.COPY_DST ResourceState.PRESENT] ∧
    IndirectCopyInfo (VirtualGetRenderArea ⟨0, 0, 0, 0⟩ 800 600) ⟨0, 0, 1024, 768⟩ =
      { srcOffsetX := 0, srcOffsetY := 0, dstOffsetX := 112, dstOffsetY := 84
        extentX := 800, extentY := 600 } := by
  constructor
  · simp only [RecordPreamble, hh, hr, Bool.false_eq_true, if_false, if_neg]
    have hi2 : IsIndirect { s with isRecording := s.isRecording.set i true } = true := hi
    simp [hi2, IsIndirect] at hi ⊢
    simp [hi]
  · decide

/-- C3 amended witness: the amended theorem applied to the concrete
compositing state `c3State` at slot 0. -/
theorem c3_amended_witness :
    (RecordPreamble c3State 0).2 =
      [Event.CmdBegin (c3State.commandBuffers.getD 0 0),
       Event.Transition (c3State.deviceTarget.colorImages.getD 0 0)
         ResourceState.PRESENT ResourceState.RENDER_TARGET,
       Event.BeginRenderPass (c3State.deviceTarget.clearRenderPasses.getD 0 0),
       Event.EndRenderPass,
       Event.Transition (c3State.deviceTarget.colorImages.getD 0 0)
         ResourceState.RENDER_TARGET ResourceState.COPY_DST,
       Event.Transition (c3State.indirectTarget.colorImages.getD 0 0)
         ResourceState.PRESENT ResourceState.COPY_SRC,
       Event.CopyImageToImage
         { srcOffsetX := 0, srcOffsetY := 0, dstOffsetX := 0, dstOffsetY := 0
           extentX := min c3State.createInfo.width c3State.indirectTarget.width
           extentY := min c3State.createInfo.height c3State.indirectTarget.height }
         (c3State.indirectTarget.colorImages.getD 0 0)
         (c3State.deviceTarget.colorImages.getD 0 0),
       Event.Transition (c3State.indirectTarget.colorImages.getD 0 0)
         ResourceState.COPY_SRC ResourceState.PRESENT,
       Event.Transition (c3State.deviceTarget.colorImages.getD 0 0)
         ResourceState.COPY_DST ResourceState.PRESENT] ∧
    IndirectCopyInfo (VirtualGetRenderArea ⟨0, 0, 0, 0⟩ 800 600) ⟨0, 0, 1024, 768⟩ =
      { srcOffsetX := 0, srcOffsetY := 0, dstOffsetX := 112, dstOffsetY := 84
        extentX := 800, extentY := 600 } :=
  c3_amended_preamble_extent_and_indirect_centering c3State 0
    (by decide) (by decide) (by decide)

/-- C6: CreateTarget is all-or-nothing. Whenever any step of
CreateTargetImpl fails (color images, depth images or render passes),
CreateTarget propagates exactly that error, leaves the target with
zero dimensions and no color images, depth images or render passes,
restores the device's live-resource list to what it was before the
call (every resource created for the target is destroyed), and the
rollback destroys render passes first, then depth images, then color
images. -/
theorem c6_createTarget_rollback (d : Device) (ci : SwapchainCreateInfo)
    (w h : Nat) (chs dhs : Option (List Nat))
    (hwf : DeviceWF d)
    (hfail : (CreateTargetImpl d ci emptyTarget w h chs dhs).1 ≠ Result.SUCCESS) :
    (CreateTarget d ci emptyTarget w h chs dhs).1 =
      (CreateTargetImpl d ci emptyTarget w h chs dhs).1 ∧
    (CreateTarget d ci emptyTarget w h chs dhs).2.2.1 = emptyTarget ∧
    (CreateTarget d ci emptyTarget w h chs dhs).2.1.live = d.live ∧
    (CreateTarget d ci emptyTarget w h chs dhs).2.2.2 =
      ((CreateTargetImpl d ci emptyTarget w h chs dhs).2.2.clearRenderPasses ++
        (CreateTargetImpl d ci emptyTarget w h chs dhs).2.2.loadRenderPasses).map
          Event.DestroyRenderPassEv ++
      (CreateTargetImpl d ci emptyTarget w h chs dhs).2.2.depthImages.map
        Event.DestroyImageEv ++
      (CreateTargetImpl d ci emptyTarget w h chs dhs).2.2.colorImages.map
        Event.DestroyImageEv := by
  obtain ⟨n1, n2, na, nb, htgt, hlive, hbound⟩ :=
    createTargetImpl_spec d ci emptyTarget w h chs dhs
  unfold CreateTarget
  rcases himpl : CreateTargetImpl d ci emptyTarget w h chs dhs with ⟨r, d1, t1⟩
  rw [himpl] at htgt hlive hfail
  dsimp only at htgt hlive hfail ⊢
  obtain ⟨hdt, hdlive, -, -, hdev⟩ := destroyTarget_spec d1 t1
  have hfields : t1.clearRenderPasses = na ∧ t1.loadRenderPasses = nb ∧
      t1.depthImages = n2 ∧ t1.colorImages = n1 := by
    rw [htgt]
    simp [emptyTarget]
  have hliveRestored :
      (t1.clearRenderPasses ++ t1.loadRenderPasses ++ t1.depthImages ++
        t1.colorImages).foldl List.erase d1.live = d.live := by
    rw [hfields.1, hfields.2.1, hfields.2.2.1, hfields.2.2.2, hlive]
    have hassoc : nb.reverse ++ (na.reverse ++ (n2.reverse ++ (n1.reverse ++ d.live))) =
        (nb.reverse ++ na.reverse ++ n2.reverse ++ n1.reverse) ++ d.live := by
      simp [List.append_assoc]
    rw [hassoc]
    refine foldl_erase_of_perm _ _ _ (rev4_perm na nb n2 n1).symm ?_
    intro a ha hmem
    have hge : d.nextId ≤ a := by
      simp only [List.mem_append] at ha
      refine hbound a ?_
      simp only [List.mem_append]
      tauto
    exact Nat.not_lt.mpr hge (hwf a hmem)
  cases r
  case SUCCESS => exact absurd rfl hfail
  all_goals
    refine ⟨rfl, hdt, ?_, hdev⟩
  all_goals
    rw [← hliveRestored]
    exact congrArg Device.live (congrArg Prod.fst (congrArg _ rfl)) |>.trans hdlive

/-- C6 witness: the rollback theorem applied to the concrete device
`c6Device`, whose third creation call fails: with `c6CreateInfo`
(two images, depth format configured) the two color images succeed
and the first depth allocation fails, forcing a full rollback. -/
theorem c6_rollback_witness :
    (CreateTarget c6Device c6CreateInfo emptyTarget 640 480 none none).1 =
      (CreateTargetImpl c6Device c6CreateInfo emptyTarget 640 480 none none).1 ∧
    (CreateTarget c6Device c6CreateInfo emptyTarget 640 480 none none).2.2.1 = emptyTarget ∧
    (CreateTarget c6Device c6CreateInfo emptyTarget 640 480 none none).2.1.live =
      c6Device.live ∧
    (CreateTarget c6Device c6CreateInfo emptyTarget 640 480 none none).2.2.2 =
      ((CreateTargetImpl c6Device c6CreateInfo emptyTarget 640 480 none none).2.2.clearRenderPasses ++
        (CreateTargetImpl c6Device c6CreateInfo emptyTarget 640 480 none none).2.2.loadRenderPasses).map
          Event.DestroyRenderPassEv ++
      (CreateTargetImpl c6Device c6CreateInfo emptyTarget 640 480 none none).2.2.depthImages.map
        Event.DestroyImageEv ++
      (CreateTargetImpl c6Device c6CreateInfo emptyTarget 640 480 none none).2.2.colorImages.map
        Event.DestroyImageEv :=
  c6_createTarget_rollback c6Device c6CreateInfo 640 480 none none
    (fun x hx => absurd hx (List.not_mem_nil x)) (by decide)

/-- C7: for both AcquireNextImage and Present on the device-swapchain
wrapper, a transient result (out of date or suboptimal) from the
wrapped swapchain sets the internal needUpdate flag; the call returns
success instead of the error iff the wrapper was constructed with
error absorption enabled, and propagates the error unchanged
otherwise. -/
theorem c7_wrapper_transient_errors (w : DeviceWrap) (idx sem : Nat)
    (fen : Option Nat) :
    (DeviceWrap.AcquireNextImage w Result.ERROR_OUT_OF_DATE idx sem fen).2.1.needUpdate = true ∧
    (DeviceWrap.AcquireNextImage w Result.ERROR_OUT_OF_DATE idx sem fen).1 =
      (if w.absorbError then Result.SUCCESS else Result.ERROR_OUT_OF_DATE) ∧
    (DeviceWrap.AcquireNextImage w Result.ERROR_SUBOPTIMAL idx sem fen).2.1.needUpdate = true ∧
    (DeviceWrap.AcquireNextImage w Result.ERROR_SUBOPTIMAL idx sem fen).1 =
      (if w.absorbError then Result.SUCCESS else Result.ERROR_SUBOPTIMAL) ∧
    (DeviceWrap.Present w Result.ERROR_OUT_OF_DATE).2.needUpdate = true ∧
    (DeviceWrap.Present w Result.ERROR_OUT_OF_DATE).1 =
      (if w.absorbError then Result.SUCCESS else Result.ERROR_OUT_OF_DATE) ∧
    (DeviceWrap.Present w Result.ERROR_SUBOPTIMAL).2.needUpdate = true ∧
    (DeviceWrap.Present w Result.ERROR_SUBOPTIMAL).1 =
      (if w.absorbError then Result.SUCCESS else Result.ERROR_SUBOPTIMAL) := by
  rcases w with ⟨nu, ab⟩
  cases ab <;> simp [DeviceWrap.AcquireNextImage, DeviceWrap.Present]

/-- C9: RecordPreamble is idempotent per slot. On a headless swapchain it
is a no-op with no recorded commands; on any swapchain, calling it a
second time on the same slot without an intervening Present leaves the
state unchanged and records nothing, because the per-slot recording
flag set by the first call short-circuits the second. -/
theorem c9_recordPreamble_idempotent (s : State) (i : Nat)
    (hi : i < s.isRecording.length) :
    (IsHeadless s = true → RecordPreamble s i = (s, [])) ∧
    RecordPreamble (RecordPreamble s i).1 i = ((RecordPreamble s i).1, []) := by
  have noop : ∀ t : State, t.isRecording.getD i false = true →
      RecordPreamble t i = (t, []) := by
    intro t ht
    have ht2 : t.isRecording[i]?.getD false = true := by
      rw [← List.getD_eq_getElem?_getD]
      exact ht
    by_cases hh : IsHeadless t = true
    · simp [RecordPreamble, hh]
    · simp [RecordPreamble, hh, ht2]
  by_cases hh : IsHeadless s = true
  · have h1 : RecordPreamble s i = (s, []) := by simp [RecordPreamble, hh]
    exact ⟨fun _ => h1, by rw [h1]; exact h1⟩
  · refine ⟨fun h => absurd h hh, ?_⟩
    by_cases hr : s.isRecording.getD i false = true
    · rw [noop s hr]
      exact noop s hr
    · have hr2 : s.isRecording[i]?.getD false = false := by
        rw [← List.getD_eq_getElem?_getD]
        cases h : s.isRecording.getD i false
        · rfl
        · exact absurd h hr
      have hstate : (RecordPreamble s i).1 =
          { s with isRecording := s.isRecording.set i true } := by
        by_cases hind : s.isIndirect = true
        · simp [RecordPreamble, hh, hr2, IsIndirect, hind]
        · simp [RecordPreamble, hh, hr2, IsIndirect, hind]
      refine noop _ ?_
      rw [hstate]
      simp [List.getD_eq_getElem?_getD, List.getElem?_set_self, hi]

/-- C9 witness: the idempotence theorem applied to the non-headless state
`c1State` at slot 0 (whose recording flag starts clear). -/
theorem c9_witness :
    (IsHeadless c1State = true → RecordPreamble c1State 0 = (c1State, [])) ∧
    RecordPreamble (RecordPreamble c1State 0).1 0 = ((RecordPreamble c1State 0).1, []) :=
  c9_recordPreamble_idempotent c1State 0 (by decide)

/-- C10: when the device-swapchain wrapper (with absorption enabled) or
the indirect/virtual swapchain absorbs an out-of-date acquire result,
it writes image index 0 and performs an empty submission (zero command
buffers) that signals the caller's semaphore and fence before
returning success; an absorbed suboptimal result performs no
submission and leaves the backend-returned index unchanged. -/
theorem c10_absorbed_acquire_signalling (nu : Bool) (idx sem : Nat)
    (fen : Option Nat) :
    DeviceWrap.AcquireNextImage ⟨nu, true⟩ Result.ERROR_OUT_OF_DATE idx sem fen =
      (Result.SUCCESS, ⟨true, true⟩, 0, [Event.Submit [] [] [sem] fen]) ∧
    DeviceWrap.AcquireNextImage ⟨nu, true⟩ Result.ERROR_SUBOPTIMAL idx sem fen =
      (Result.SUCCESS, ⟨true, true⟩, idx, []) ∧
    IndirectAcquireNextImage Result.ERROR_OUT_OF_DATE idx sem fen =
      (Result.SUCCESS, 0, [Event.Submit [] [] [sem] fen]) ∧
    IndirectAcquireNextImage Result.ERROR_SUBOPTIMAL idx sem fen =
      (Result.SUCCESS, idx, []) := by
  cases nu <;> simp [DeviceWrap.AcquireNextImage, IndirectAcquireNextImage]

/-- C8: SetIndirectRenderSize(0,0) after a previous non-zero call disables
indirection: the indirect flag becomes false, the indirect target is
destroyed (zero dimensions, no resources), and every subsequent
non-headless Present skips the blit preamble entirely, reducing to the
flush-and-present body PresentCore (RecordPreamble is not invoked). -/
theorem c8_zero_size_disables_indirection (d : Device) (s : State) (w h : Nat)
    (hw : w ≠ 0) (hh : h ≠ 0)
    (hcw : s.createInfo.width ≠ 0)
    (hhead : IsHeadless s = false) :
    IsIndirect (SetIndirectRenderSize (SetIndirectRenderSize d s w h).2.1
      (SetIndirectRenderSize d s w h).2.2.1 0 0).2.2.1 = false ∧
    (SetIndirectRenderSize (SetIndirectRenderSize d s w h).2.1
      (SetIndirectRenderSize d s w h).2.2.1 0 0).2.2.1.indirectTarget = emptyTarget ∧
    (∀ i ws,
      Present (SetIndirectRenderSize (SetIndirectRenderSize d s w h).2.1
          (SetIndirectRenderSize d s w h).2.2.1 0 0).2.2.1 i ws =
        PresentCore (SetIndirectRenderSize (SetIndirectRenderSize d s w h).2.1
          (SetIndirectRenderSize d s w h).2.2.1 0 0).2.2.1 i ws) := by
  obtain ⟨t1, d1, r1, evs1, heq1, hdisj1⟩ := setIndirectRenderSize_shape d s w h
  have hproj1 : (SetIndirectRenderSize d s w h).2.2.1 =
      { s with isIndirect := (w ≠ 0 && h ≠ 0), indirectTarget := t1 } := by rw [heq1]
  have hprojd : (SetIndirectRenderSize d s w h).2.1 = d1 := by rw [heq1]
  rw [hproj1, hprojd]
  obtain ⟨t2, d2, r2, evs2, heq2, hdisj2⟩ := setIndirectRenderSize_shape d1
    { s with isIndirect := (w ≠ 0 && h ≠ 0), indirectTarget := t1 } 0 0
  have hproj2 : (SetIndirectRenderSize d1
      { s with isIndirect := (w ≠ 0 && h ≠ 0), indirectTarget := t1 } 0 0).2.2.1 =
      { s with isIndirect := false, indirectTarget := t2 } := by
    rw [heq2]
    rfl
  rw [hproj2]
  have ht2 : t2 = emptyTarget := by
    rcases hdisj2 with ⟨ht, hw0, hh0⟩ | ht | ⟨⟨hz, _⟩, _⟩
    · dsimp only at ht hw0 hh0
      rcases hdisj1 with ⟨ht1, hw1, _⟩ | ht1 | ⟨_, hw1, _⟩
      · rw [ht1] at hw0
        exact absurd (hw1.symm.trans hw0) hw
      · exact ht.trans ht1
      · exact absurd (hw1.symm.trans hw0) hcw
    · exact ht
    · exact absurd rfl hz
  subst ht2
  refine ⟨rfl, rfl, ?_⟩
  intro i ws
  have hheads2 : IsHeadless { s with isIndirect := false, indirectTarget := emptyTarget } = false := hhead
  have hinds2 : IsIndirect { s with isIndirect := false, indirectTarget := emptyTarget } = false := rfl
  rcases hp : PresentCore { s with isIndirect := false, indirectTarget := emptyTarget } i ws with ⟨sx, ex⟩
  simp [Present, hheads2, hinds2, hp]

/-- C8 witness: the disabling theorem applied to the concrete 1024x768
non-headless swapchain state `c2State` with a previous (800,600)
indirect size on a fresh device. -/
theorem c8_witness :
    IsIndirect (SetIndirectRenderSize (SetIndirectRenderSize {} c2State 800 600).2.1
      (SetIndirectRenderSize {} c2State 800 600).2.2.1 0 0).2.2.1 = false ∧
    (SetIndirectRenderSize (SetIndirectRenderSize {} c2State 800 600).2.1
      (SetIndirectRenderSize {} c2State 800 600).2.2.1 0 0).2.2.1.indirectTarget =
      emptyTarget ∧
    (∀ i ws,
      Present (SetIndirectRenderSize (SetIndirectRenderSize {} c2State 800 600).2.1
          (SetIndirectRenderSize {} c2State 800 600).2.2.1 0 0).2.2.1 i ws =
        PresentCore (SetIndirectRenderSize (SetIndirectRenderSize {} c2State 800 600).2.1
          (SetIndirectRenderSize {} c2State 800 600).2.2.1 0 0).2.2.1 i ws) :=
  c8_zero_size_disables_indirection {} c2State 800 600
    (by decide) (by decide) (by decide) (by decide)

/-- C4: on a headless swapchain created with imageCount = N ≥ 1 (non-zero
resolution, valid queue, no allocation failures), Create initialises
the current image index to N - 1 and the headless acquire path
advances round robin: the k-th AcquireNextImage call (k ≥ 1, headless
AcquireNextImage dispatches to AcquireNextImageHeadless) returns
(k - 1) % N; in particular the first call returns 0, the (N+1)-th
call returns 0 again, and the second returns 1 whenever N ≥ 2. -/
theorem c4_headless_acquire_round_robin (d : Device) (ci : SwapchainCreateInfo)
    (k : Nat)
    (hq : ci.queueValid = true) (hsurf : ci.hasSurface = false)
    (hwz : ci.width ≠ 0) (hhz : ci.height ≠ 0)
    (hN : 1 ≤ ci.imageCount) (hf : d.failAt = []) (hk : 1 ≤ k) :
    (CreateHeadless d ci).2.2.currentImageIndex = ci.imageCount - 1 ∧
    acquireIndex (CreateHeadless d ci).2.2 k = (k - 1) % ci.imageCount ∧
    acquireIndex (CreateHeadless d ci).2.2 1 = 0 ∧
    acquireIndex (CreateHeadless d ci).2.2 (ci.imageCount + 1) = 0 ∧
    (2 ≤ ci.imageCount → acquireIndex (CreateHeadless d ci).2.2 2 = 1) := by
  obtain ⟨hci, hcur, hcolors⟩ := createHeadless_facts d ci hq hwz hhz hf
  have hspec := acquireStateN_spec (CreateHeadless d ci).2.2 ci.imageCount hN
    hcolors hcur
  have hidx : ∀ j : Nat,
      acquireIndex (CreateHeadless d ci).2.2 (j + 1) = j % ci.imageCount := by
    intro j
    have h1 := (hspec j).1
    have h2 : (acquireStateN (CreateHeadless d ci).2.2 j).indirectTarget.colorImages.length =
        ci.imageCount := by
      rw [(hspec j).2, hcolors]
    unfold acquireIndex
    simp only [AcquireNextImageHeadless, Nat.add_sub_cancel]
    rw [h2, h1, Nat.mod_add_mod]
    have hsum : ci.imageCount - 1 + j + 1 = ci.imageCount + j := by omega
    rw [hsum, Nat.add_mod_left]
  refine ⟨hcur, ?_, ?_, ?_, ?_⟩
  · obtain ⟨j, rfl⟩ : ∃ j, k = j + 1 := ⟨k - 1, by omega⟩
    simpa using hidx j
  · rw [hidx 0]
    exact Nat.zero_mod _
  · rw [hidx ci.imageCount]
    exact Nat.mod_self _
  · intro h2N
    rw [hidx 1]
    exact Nat.mod_eq_of_lt (by omega)

/-- C4 witness: the round-robin theorem applied to the concrete headless
create info `c4CreateInfo` (two images) on a fresh device, at the
third acquire call. -/
theorem c4_round_robin_witness :
    (CreateHeadless {} c4CreateInfo).2.2.currentImageIndex =
      c4CreateInfo.imageCount - 1 ∧
    acquireIndex (CreateHeadless {} c4CreateInfo).2.2 3 =
      (3 - 1) % c4CreateInfo.imageCount ∧
    acquireIndex (CreateHeadless {} c4CreateInfo).2.2 1 = 0 ∧
    acquireIndex (CreateHeadless {} c4CreateInfo).2.2 (c4CreateInfo.imageCount + 1) = 0 ∧
    (2 ≤ c4CreateInfo.imageCount →
      acquireIndex (CreateHeadless {} c4CreateInfo).2.2 2 = 1) :=
  c4_headless_acquire_round_robin {} c4CreateInfo 3 (by decide) (by decide)
    (by decide) (by decide) (by decide) rfl (by decide)

/-- C5 counterexample: on a swapchain configured without a depth format
(such as the spec's own headless scenario), the depth image list is
empty, so GetDepthImage(0) returns OutOfRange and leaves the output
untouched even though 0 < GetImageCount() = 2 — refuting the claim
that all three getters succeed for every index below GetImageCount. -/
theorem c5_counterexample_depth_without_depth_format :
    0 < GetImageCount c1State ∧
    GetDepthImage c1State 0 99 = (Result.ERROR_OUT_OF_RANGE, 99) := by
  decide

/-- C5 amended: GetColorImage and GetRenderPass succeed with a non-null
output for every index below the live color-image / render-pass count
of the active target, and GetDepthImage succeeds with a non-null
output for every index below the live depth-image count (which is zero
when no depth format was configured, making GetDepthImage fail for
every index); each getter returns OutOfRange and leaves the output
pointer unwritten for indices at or above its own live count. -/
theorem c5_amended_getters_range_checked (s : State) (i out : Nat)
    (hc : 0 ∉ (GetTarget s).colorImages)
    (hd : 0 ∉ (GetTarget s).depthImages)
    (hcl : 0 ∉ (GetTarget s).clearRenderPasses)
    (hl : 0 ∉ (GetTarget s).loadRenderPasses)
    (hlen : (GetTarget s).loadRenderPasses.length =
      (GetTarget s).clearRenderPasses.length) :
    (i < (GetTarget s).colorImages.length →
      (GetColorImage s i out).1 = Result.SUCCESS ∧ (GetColorImage s i out).2 ≠ 0) ∧
    ((GetTarget s).colorImages.length ≤ i →
      GetColorImage s i out = (Result.ERROR_OUT_OF_RANGE, out)) ∧
    (i < (GetTarget s).depthImages.length →
      (GetDepthImage s i out).1 = Result.SUCCESS ∧ (GetDepthImage s i out).2 ≠ 0) ∧
    ((GetTarget s).depthImages.length ≤ i →
      GetDepthImage s i out = (Result.ERROR_OUT_OF_RANGE, out)) ∧
    (∀ lo, i < (GetTarget s).clearRenderPasses.length →
      (GetRenderPass s i lo out).1 = Result.SUCCESS ∧ (GetRenderPass s i lo out).2 ≠ 0) ∧
    (∀ lo, (GetTarget s).clearRenderPasses.length ≤ i →
      GetRenderPass s i lo out = (Result.ERROR_OUT_OF_RANGE, out)) := by
  have mem_ne_zero : ∀ (l : List Nat), 0 ∉ l → ∀ j, j < l.length → l.getD j 0 ≠ 0 := by
    intro l h0 j hj hzero
    apply h0
    rw [List.getD_eq_getElem?_getD, List.getElem?_eq_getElem hj] at hzero
    simp only [Option.getD_some] at hzero
    rw [← hzero]
    exact List.getElem_mem hj
  refine ⟨?_, ?_, ?_, ?_, ?_, ?_⟩
  · intro h
    exact ⟨by simp [GetColorImage, h], by
      simp only [GetColorImage, if_pos h]
      exact mem_ne_zero _ hc i h⟩
  · intro h
    simp [GetColorImage, Nat.not_lt.mpr h]
  · intro h
    exact ⟨by simp [GetDepthImage, h], by
      simp only [GetDepthImage, if_pos h]
      exact mem_ne_zero _ hd i h⟩
  · intro h
    simp [GetDepthImage, Nat.not_lt.mpr h]
  · intro lo h
    cases lo
    · exact ⟨by simp [GetRenderPass, h], by
        simp only [GetRenderPass, if_pos h]
        exact mem_ne_zero _ hcl i h⟩
    · exact ⟨by simp [GetRenderPass, h], by
        simp only [GetRenderPass, if_pos h]
        exact mem_ne_zero _ hl i (hlen ▸ h)⟩
  · intro lo h
    cases lo <;> simp [GetRenderPass, Nat.not_lt.mpr h]

/-- C5 amended witness: the amended getter theorem applied to the concrete
two-image swapchain state `c1State` at index 1 with sentinel output
value 99. -/
theorem c5_amended_witness :
    (1 < (GetTarget c1State).colorImages.length →
      (GetColorImage c1State 1 99).1 = Result.SUCCESS ∧ (GetColorImage c1State 1 99).2 ≠ 0) ∧
    ((GetTarget c1State).colorImages.length ≤ 1 →
      GetColorImage c1State 1 99 = (Result.ERROR_OUT_OF_RANGE, 99)) ∧
    (1 < (GetTarget c1State).depthImages.length →
      (GetDepthImage c1State 1 99).1 = Result.SUCCESS ∧ (GetDepthImage c1State 1 99).2 ≠ 0) ∧
    ((GetTarget c1State).depthImages.length ≤ 1 →
      GetDepthImage c1State 1 99 = (Result.ERROR_OUT_OF_RANGE, 99)) ∧
    (∀ lo, 1 < (GetTarget c1State).clearRenderPasses.length →
      (GetRenderPass c1State 1 lo 99).1 = Result.SUCCESS ∧
        (GetRenderPass c1State 1 lo 99).2 ≠ 0) ∧
    (∀ lo, (GetTarget c1State).clearRenderPasses.length ≤ 1 →
      GetRenderPass c1State 1 lo 99 = (Result.ERROR_OUT_OF_RANGE, 99)) :=
  c5_amended_getters_range_checked c1State 1 99
    (by decide) (by decide) (by decide) (by decide) (by decide)

end Swapchain
